import Mathlib

/-!
Shallow embedding of `src/bsky_bridge/bsky_session.py` (class `BskySession`):
a client-side authentication session manager. External effects (HTTP
transport, JSON blob persistence) are modelled as oracles passed in
explicitly; Python exceptions become an `Option PyError` component that is
returned ALONGSIDE the post-mutation state, because Python exceptions do not
roll back attribute assignments already performed. Every operation also
returns the list of observable events it performed (network calls, file
writes/deletes, recovery transitions), so that trace properties of the spec
can be stated.
-/

namespace BskyBridge

/-- Python exception classes that escape the methods of `BskySession`.
`connectionError` is the builtin `ConnectionError` raised at lines 55 and 82;
`valueError` is the `ValueError` of line 73; `httpError s` is
`requests.HTTPError` from `resp.raise_for_status()` for a status `s` in
[400,600); `ioError` is the `IOError` re-raised by `_save_session`;
`requestException` is a transport-level `requests.RequestException` escaping
`api_call`; `unboundLocalError` models the `UnboundLocalError` raised when
the `except` handlers of `_create_session` / `_refresh_access_token`
reference the name `resp` although `requests.post` raised before `resp` was
ever assigned. -/
inductive PyError where
  | connectionError (context : String)
  | valueError (msg : String)
  | httpError (status : Nat)
  | ioError
  | requestException (msg : String)
  | unboundLocalError (context : String)
deriving Repr, DecidableEq

/-- `PyError.isHttpStatusError e` holds exactly for the `requests.HTTPError`
raised by `resp.raise_for_status()` on a non-2xx API response: the generic
non-2xx call error. -/
def PyError.isHttpStatusError : PyError → Bool
  | .httpError _ => true
  | _ => false

/-- Observable events of a run: entering `_refresh_access_token` /
`_create_session`, the network POSTs they make, the guarded request of
`api_call` (recording endpoint, method, params, json body, data body and the
`Authorization` value sent), the `RECOVER` transition of `api_call`
(log line "Token potentially expired or invalid"), a successful session-file
write, and a successful session-file delete. -/
inductive Event where
  | refreshEnter
  | refreshNet
  | createEnter
  | createNet
  | attempt (endpoint method : String) (params jsonBody dataBody : Option String)
      (auth : String)
  | recover
  | save
  | delete
deriving Repr, DecidableEq

/-- The in-memory attributes of a `BskySession` instance (`__init__`,
lines 33-38). The `session_file` path is abstracted away: its contents are
supplied by the persistence oracles below. -/
structure SessionState where
  handle : String
  app_password : String
  access_token : Option String
  refresh_token : Option String
  did : Option String
deriving Repr, DecidableEq

/-- Python `f"...{x}..."` rendering of a nullable string: `None` prints as
the literal string "None". -/
def pyStr : Option String → String
  | some s => s
  | none => "None"

/-- Headers are a Python `dict` from header name to value, modelled as an
insertion-ordered association list. -/
abbrev Headers := List (String × String)

/-- Python `d[key] = val` on a dict: overwrite in place if present, else
append at the end. -/
def dictSet (d : Headers) (key val : String) : Headers :=
  if d.any (fun p => p.1 == key) then
    d.map (fun p => if p.1 == key then (key, val) else p)
  else d ++ [(key, val)]

/-- Python `d.update(u)` on dicts. -/
def dictUpdate (d : Headers) (u : Headers) : Headers :=
  u.foldl (fun acc p => dictSet acc p.1 p.2) d

/-- Python `d.get(key)` on a dict. -/
def dictGet (d : Headers) (key : String) : Option String :=
  (d.find? (fun p => p.1 == key)).map Prod.snd

/-- The `Authorization` value `get_auth_header` builds (line 141):
`f"Bearer {self.access_token}"`. -/
def bearer (st : SessionState) : String :=
  "Bearer " ++ pyStr st.access_token

/-- `get_auth_header` (lines 134-141). -/
def get_auth_header (st : SessionState) : Headers :=
  [("Authorization", bearer st)]

/-- Decoded body of a 2xx `createSession` / `refreshSession` response:
`accessJwt` and `did` are accessed with `session[...]` (required),
`refreshJwt` with `session.get(...)` (optional). -/
structure SessionBody where
  accessJwt : String
  refreshJwt : Option String
  did : String
deriving Repr, DecidableEq

/-- Outcome of one `requests.post` / `requests.request` call:
`ok status body` means a response object came back (possibly non-2xx);
`exn msg` means the transport raised a `requests.RequestException` before
any response object existed. -/
inductive ReqOutcome (β : Type) where
  | ok (status : Nat) (body : β)
  | exn (msg : String)
deriving Repr, DecidableEq

/-- Result of a lifecycle operation: the post-mutation state, the events
performed, and the escaping exception if any. -/
structure OpResult where
  state : SessionState
  events : List Event
  err : Option PyError
deriving Repr, DecidableEq

/-- `requests.raise_for_status` raises `HTTPError` exactly for status codes
in [400, 600). -/
def errStatus (status : Nat) : Prop := 400 ≤ status ∧ status < 600

instance (status : Nat) : Decidable (errStatus status) := by
  unfold errStatus; infer_instance

/-- `_create_session` (lines 41-62), with the transport outcome of the
`createSession` POST and the success of the session-file write supplied as
oracles. When `requests.post` raises (no response object), the `except`
handler's `getattr(resp, 'status_code', 'No Response')` at line 54
references the unbound local `resp`, so an `UnboundLocalError` escapes
instead of the intended `ConnectionError`. On a non-2xx response,
`raise_for_status` raises inside the `try` and line 55 raises
`ConnectionError`. Otherwise the three token attributes are overwritten
from the body and `_save_session` runs; a failed write raises `IOError`
after the in-memory mutation. -/
def create_session (st : SessionState) (resp : ReqOutcome SessionBody)
    (saveOk : Bool) : OpResult :=
  match resp with
  | .exn _ =>
      ⟨st, [.createEnter, .createNet], some (.unboundLocalError "create")⟩
  | .ok status body =>
      if errStatus status then
        ⟨st, [.createEnter, .createNet],
          some (.connectionError "Error creating session")⟩
      else
        let st' : SessionState :=
          { st with access_token := some body.accessJwt,
                    refresh_token := body.refreshJwt,
                    did := some body.did }
        if saveOk then ⟨st', [.createEnter, .createNet, .save], none⟩
        else ⟨st', [.createEnter, .createNet], some .ioError⟩

/-- `_refresh_access_token` (lines 64-89). With no stored `refresh_token`
it raises `ValueError` at line 73 before any network call. Otherwise it
POSTs to `refreshSession`; failure handling mirrors `create_session`
(including the same unbound-`resp` slip at line 81). -/
def refresh_access_token (st : SessionState) (resp : ReqOutcome SessionBody)
    (saveOk : Bool) : OpResult :=
  match st.refresh_token with
  | none => ⟨st, [.refreshEnter], some (.valueError "Refresh token is missing.")⟩
  | some _ =>
    match resp with
    | .exn _ =>
        ⟨st, [.refreshEnter, .refreshNet], some (.unboundLocalError "refresh")⟩
    | .ok status body =>
        if errStatus status then
          ⟨st, [.refreshEnter, .refreshNet],
            some (.connectionError "Error refreshing session")⟩
        else
          let st' : SessionState :=
            { st with access_token := some body.accessJwt,
                      refresh_token := body.refreshJwt,
                      did := some body.did }
          if saveOk then ⟨st', [.refreshEnter, .refreshNet, .save], none⟩
          else ⟨st', [.refreshEnter, .refreshNet], some .ioError⟩

/-- What is found at `session_file` when `_load_session` runs: no file,
a file whose read or JSON decode fails, or a decoded JSON object whose
three fields are read with `.get` (each possibly absent). -/
inductive BlobState where
  | absent
  | undecodable
  | decoded (accessJwt refreshJwt did : Option String)
deriving Repr, DecidableEq

/-- `_load_session` (lines 91-112): a decodable blob populates the three
attributes from its fields and makes no network call; a missing or
undecodable blob falls through to `_create_session`. -/
def load_session (st : SessionState) (blob : BlobState)
    (createResp : ReqOutcome SessionBody) (createSaveOk : Bool) : OpResult :=
  match blob with
  | .decoded a r d =>
      ⟨{ st with access_token := a, refresh_token := r, did := d }, [], none⟩
  | .absent => create_session st createResp createSaveOk
  | .undecodable => create_session st createResp createSaveOk

/-- `__init__` (lines 24-39): attributes start as `None`, then
`_load_session` runs. -/
def init_session (handle app_password : String) (blob : BlobState)
    (createResp : ReqOutcome SessionBody) (createSaveOk : Bool) : OpResult :=
  load_session
    { handle := handle, app_password := app_password,
      access_token := none, refresh_token := none, did := none }
    blob createResp createSaveOk

/-- `logout` (lines 185-200): the three attributes are cleared first,
unconditionally; then the session file is deleted if present, with a
failed delete (`OSError`) caught and logged, never raised. -/
def logout (st : SessionState) (fileExists deleteOk : Bool) : OpResult :=
  let st' : SessionState :=
    { st with access_token := none, refresh_token := none, did := none }
  if fileExists then
    if deleteOk then ⟨st', [.delete], none⟩ else ⟨st', [], none⟩
  else ⟨st', [], none⟩

/-- The environment's behaviour at one level of the `api_call` recursion:
the outcome of the guarded request itself, and — in case a recovery is
triggered at this level — the outcomes of the `refreshSession` POST, the
`createSession` POST, and the two session-file writes. -/
structure AttemptOracle where
  apiResp : ReqOutcome String
  refreshResp : ReqOutcome SessionBody
  refreshSaveOk : Bool
  createResp : ReqOutcome SessionBody
  createSaveOk : Bool
deriving Repr, DecidableEq

/-- The inner recovery block of `api_call` (lines 170-176):
`_refresh_access_token()` guarded by `except ConnectionError`, whose
handler calls `_create_session()`. Only the builtin `ConnectionError`
triggers the Create fallback; `ValueError`, `IOError` and
`UnboundLocalError` escape unhandled. -/
def recover (st : SessionState) (a : AttemptOracle) : OpResult :=
  let r := refresh_access_token st a.refreshResp a.refreshSaveOk
  match r.err with
  | some (.connectionError _) =>
      let c := create_session r.state a.createResp a.createSaveOk
      ⟨c.state, r.events ++ c.events, c.err⟩
  | _ => r

instance {ε α : Type} [DecidableEq ε] [DecidableEq α] :
    DecidableEq (Except ε α) := fun a b =>
  match a, b with
  | .ok x, .ok y =>
      if h : x = y then .isTrue (by rw [h]) else .isFalse (by simp [h])
  | .error x, .error y =>
      if h : x = y then .isTrue (by rw [h]) else .isFalse (by simp [h])
  | .ok _, .error _ => .isFalse (by simp)
  | .error _, .ok _ => .isFalse (by simp)

/-- Result of a guarded call: the post-mutation state, the final content of
the (single, mutated-in-place) headers dict threaded through the recursion,
the events performed, and either the decoded body or the escaping
exception. -/
structure CallResult where
  state : SessionState
  hdrs : Headers
  events : List Event
  result : Except PyError String
deriving Repr, DecidableEq

/-- The tail of `api_call` past the retry check (lines 179-180):
`resp.raise_for_status()` — an `HTTPError` for statuses in [400,600),
re-raised unchanged by the outer `except requests.RequestException` —
followed by returning `resp.json()`. -/
def api_finish (st : SessionState) (hdrs1 : Headers) (att : Event)
    (status : Nat) (body : String) : CallResult :=
  if errStatus status then ⟨st, hdrs1, [att], .error (.httpError status)⟩
  else ⟨st, hdrs1, [att], .ok body⟩

/-- `api_call` (lines 143-183) after the `headers = headers or {}` line:
`o k` is the environment's behaviour at recursion level `k`. The current
`Authorization` header is merged into the dict (line 165) and the request
is issued. On a 401/400 status with `retry > 0` — realized here by the
pattern match on `retry`, since line 169's `retry > 0` test is true exactly
on successors — the recovery block runs, the header is refreshed
(line 177) and the call recurses on the same endpoint, method, params and
payloads with `retry - 1`. Any other status (or an exhausted budget) falls
through to `api_finish`. A transport-level raise of the guarded request
escapes via the outer `except` handler as the `requests.RequestException`
it is. -/
def api_call (o : Nat → AttemptOracle) (endpoint method : String)
    (params jsonBody dataBody : Option String) :
    SessionState → Nat → Headers → Nat → CallResult
  | st, k, hdrs, 0 =>
    let hdrs1 := dictUpdate hdrs (get_auth_header st)
    let att : Event := .attempt endpoint method params jsonBody dataBody (bearer st)
    match (o k).apiResp with
    | .exn m => ⟨st, hdrs1, [att], .error (.requestException m)⟩
    | .ok status body => api_finish st hdrs1 att status body
  | st, k, hdrs, retry + 1 =>
    let hdrs1 := dictUpdate hdrs (get_auth_header st)
    let att : Event := .attempt endpoint method params jsonBody dataBody (bearer st)
    match (o k).apiResp with
    | .exn m => ⟨st, hdrs1, [att], .error (.requestException m)⟩
    | .ok status body =>
      if status = 401 ∨ status = 400 then
        let r := recover st (o k)
        match r.err with
        | some e => ⟨r.state, hdrs1, att :: .recover :: r.events, .error e⟩
        | none =>
          let hdrs2 := dictUpdate hdrs1 (get_auth_header r.state)
          let rest := api_call o endpoint method params jsonBody dataBody
            r.state (k + 1) hdrs2 retry
          ⟨rest.state, rest.hdrs, att :: .recover :: (r.events ++ rest.events),
            rest.result⟩
      else api_finish st hdrs1 att status body

/-- Result of `api_call` as seen by its caller, additionally recording the
final content of the caller's own headers dict (`none` when the caller
passed no dict). -/
structure TopResult where
  state : SessionState
  events : List Event
  result : Except PyError String
  callerHdrs : Option Headers
deriving Repr, DecidableEq

/-- `api_call` from the caller's perspective, including line 164
`headers = headers or {}`: a missing dict and an empty dict (falsy in
Python) are both replaced by a fresh dict, so only a non-empty caller dict
is aliased by — and therefore mutated through — the local `headers`
variable. -/
def api_call_top (st : SessionState) (o : Nat → AttemptOracle)
    (endpoint method : String) (params jsonBody dataBody : Option String)
    (callerHdrs : Option Headers) (retry : Nat) : TopResult :=
  let h0 : Headers :=
    match callerHdrs with
    | none => []
    | some hs => if hs.isEmpty then [] else hs
  let r := api_call o endpoint method params jsonBody dataBody st 0 h0 retry
  { state := r.state, events := r.events, result := r.result,
    callerHdrs := callerHdrs.map (fun hs => if hs.isEmpty then hs else r.hdrs) }

/-- Whether the blob a bootstrap loads (if any) carries an `accessJwt`
field; `true` for the created-from-scratch paths. -/
def blob_access_present : BlobState → Bool
  | .decoded a _ _ => a.isSome
  | _ => true

/-!  Concrete fixtures used by counterexamples and witnesses. -/

/-- A fully populated in-memory session. -/
def stA : SessionState :=
  { handle := "alice.bsky.social", app_password := "pw",
    access_token := some "A1", refresh_token := some "R1", did := some "did:abc" }

/-- A session holding an access token but no refresh token, as produced by
loading a blob whose `refreshJwt` field is absent. -/
def stNoRefresh : SessionState :=
  { handle := "alice.bsky.social", app_password := "pw",
    access_token := some "A1", refresh_token := none, did := some "did:abc" }

/-- A fresh token pair as returned by a 2xx `createSession` /
`refreshSession` response. -/
def bodyA2 : SessionBody := ⟨"A2", some "R2", "did:abc"⟩

/-- Environment in which every guarded request gets a 401 response and
both lifecycle endpoints succeed. -/
def oracle401 : Nat → AttemptOracle := fun _ =>
  { apiResp := .ok 401 "\x7b\x7d", refreshResp := .ok 200 bodyA2,
    refreshSaveOk := true, createResp := .ok 200 bodyA2, createSaveOk := true }

/-- Environment in which every guarded request gets a generic 500
response. -/
def oracle500 : Nat → AttemptOracle := fun _ =>
  { apiResp := .ok 500 "\x7b\x7d", refreshResp := .ok 200 bodyA2,
    refreshSaveOk := true, createResp := .ok 200 bodyA2, createSaveOk := true }

/-- Environment in which every guarded request succeeds with a 200. -/
def oracle200 : Nat → AttemptOracle := fun _ =>
  { apiResp := .ok 200 "\x7b\"ok\": true\x7d", refreshResp := .ok 200 bodyA2,
    refreshSaveOk := true, createResp := .ok 200 bodyA2, createSaveOk := true }

/-!  Helper lemmas (shared; none of them is a claim theorem). -/

/-- `_refresh_access_token` always begins by entering the method. -/
theorem refresh_events_head (st : SessionState) (resp : ReqOutcome SessionBody)
    (saveOk : Bool) :
    ∃ t, (refresh_access_token st resp saveOk).events = Event.refreshEnter :: t := by
  unfold refresh_access_token
  rcases st.refresh_token with _ | rt
  · exact ⟨[], rfl⟩
  · rcases resp with ⟨status, body⟩ | m
    · by_cases h : errStatus status
      · simp only [h, if_true]
        exact ⟨[Event.refreshNet], rfl⟩
      · simp only [h, if_false]
        by_cases hs : saveOk <;> simp [hs]
    · exact ⟨[Event.refreshNet], rfl⟩

/-- `_refresh_access_token` never enters `_create_session`. -/
theorem refresh_no_createEnter (st : SessionState) (resp : ReqOutcome SessionBody)
    (saveOk : Bool) :
    Event.createEnter ∉ (refresh_access_token st resp saveOk).events := by
  unfold refresh_access_token
  rcases st.refresh_token with _ | rt
  · simp
  · rcases resp with ⟨status, body⟩ | m
    · by_cases h : errStatus status
      · simp [h]
      · by_cases hs : saveOk <;> simp [h, hs]
    · simp

/-- The recovery block always begins with the entry into
`_refresh_access_token`: Refresh is attempted first, never Create. -/
theorem recover_events_head (st : SessionState) (a : AttemptOracle) :
    ∃ t, (recover st a).events = Event.refreshEnter :: t := by
  unfold recover
  obtain ⟨t, ht⟩ := refresh_events_head st a.refreshResp a.refreshSaveOk
  rcases herr : (refresh_access_token st a.refreshResp a.refreshSaveOk).err
    with _ | e
  · exact ⟨t, by simp [herr, ht]⟩
  · rcases e with c | m | s | _ | m | c
    · refine ⟨t ++ (create_session (refresh_access_token st a.refreshResp
        a.refreshSaveOk).state a.createResp a.createSaveOk).events, ?_⟩
      simp [herr, ht]
    all_goals exact ⟨t, by simp [herr, ht]⟩

/-- Neither lifecycle operation records a `RECOVER` transition of its own. -/
theorem recover_event_count (st : SessionState) (a : AttemptOracle) :
    (recover st a).events.count Event.recover = 0 := by
  have hr : ∀ (s : SessionState) (r : ReqOutcome SessionBody) (sv : Bool),
      (refresh_access_token s r sv).events.count Event.recover = 0 := by
    intro s r sv
    unfold refresh_access_token
    rcases s.refresh_token with _ | rt
    · simp
    · rcases r with ⟨status, body⟩ | m
      · by_cases h : errStatus status
        · simp [h]
        · by_cases hs : sv <;> simp [h, hs]
      · simp
  have hc : ∀ (s : SessionState) (r : ReqOutcome SessionBody) (sv : Bool),
      (create_session s r sv).events.count Event.recover = 0 := by
    intro s r sv
    unfold create_session
    rcases r with ⟨status, body⟩ | m
    · by_cases h : errStatus status
      · simp [h]
      · by_cases hs : sv <;> simp [h, hs]
    · simp
  unfold recover
  rcases herr : (refresh_access_token st a.refreshResp a.refreshSaveOk).err
    with _ | e
  · simp only [herr]
    exact hr st a.refreshResp a.refreshSaveOk
  · rcases e with c | m | s | _ | m | c
    · simp only [herr, List.count_append]
      rw [hr st a.refreshResp a.refreshSaveOk, hc]
    all_goals
      simp only [herr]
      exact hr st a.refreshResp a.refreshSaveOk

/-- Every run of `api_call` begins by issuing the guarded request with the
entry state's bearer header. -/
theorem api_call_events_head (o : Nat → AttemptOracle) (endpoint method : String)
    (params jsonBody dataBody : Option String) (st : SessionState) (k : Nat)
    (hdrs : Headers) (retry : Nat) :
    ∃ t, (api_call o endpoint method params jsonBody dataBody st k hdrs
      retry).events
      = Event.attempt endpoint method params jsonBody dataBody (bearer st) :: t := by
  cases retry with
  | zero =>
    unfold api_call
    rcases (o k).apiResp with ⟨status, body⟩ | m
    · unfold api_finish
      by_cases h : errStatus status <;> simp [h]
    · simp
  | succ r =>
    unfold api_call
    rcases (o k).apiResp with ⟨status, body⟩ | m
    · by_cases h : status = 401 ∨ status = 400
      · simp only [h, if_true]
        rcases herr : (recover st (o k)).err with _ | e
        · simp [herr]
        · simp [herr]
      · simp only [h, if_false]
        unfold api_finish
        by_cases h2 : errStatus status <;> simp [h2]
    · simp

/-- Overwriting an existing key: the first matching pair now carries the
new value. -/
theorem find_map_overwrite (key v : String) (d : Headers)
    (hany : d.any (fun p => p.1 == key) = true) :
    (d.map (fun p => if p.1 == key then (key, v) else p)).find?
      (fun p => p.1 == key) = some (key, v) := by
  induction d with
  | nil => simp at hany
  | cons p ps ih =>
    rcases hp : (p.1 == key) with _ | _
    · simp only [List.any_cons, hp, Bool.false_or] at hany
      simp only [List.map_cons, hp, Bool.false_eq_true, if_false]
      rw [List.find?_cons_of_neg _ (by simp [hp])]
      exact ih hany
    · simp only [List.map_cons, hp, if_true]
      rw [List.find?_cons_of_pos _ (by simp)]

/-- Appending a missing key: lookup finds the appended pair. -/
theorem find_append_new (key v : String) (d : Headers)
    (hany : d.any (fun p => p.1 == key) = false) :
    (d ++ [(key, v)]).find? (fun p => p.1 == key) = some (key, v) := by
  induction d with
  | nil => exact List.find?_cons_of_pos _ (by simp)
  | cons p ps ih =>
    simp only [List.any_cons, Bool.or_eq_false_iff] at hany
    rw [List.cons_append, List.find?_cons_of_neg _ (by simp [hany.1])]
    exact ih hany.2

/-- Python `d[key] = v` followed by `d.get(key)` yields `v`. -/
theorem dictGet_dictSet (d : Headers) (key v : String) :
    dictGet (dictSet d key v) key = some v := by
  unfold dictSet dictGet
  by_cases hany : d.any (fun p => p.1 == key) = true
  · simp only [hany, if_true, find_map_overwrite key v d hany,
      Option.map_some']
  · simp only [Bool.not_eq_true] at hany
    simp only [hany, Bool.false_eq_true, if_false,
      find_append_new key v d hany, Option.map_some']

/-- After line 165 / line 177 (`headers.update(self.get_auth_header())`),
the dict maps `Authorization` to the bearer rendering of the state's
access token. -/
theorem dictGet_update_auth (h : Headers) (st : SessionState) :
    dictGet (dictUpdate h (get_auth_header st)) "Authorization"
      = some (bearer st) := by
  have : dictUpdate h (get_auth_header st)
      = dictSet h "Authorization" (bearer st) := rfl
  rw [this]
  exact dictGet_dictSet h "Authorization" (bearer st)

/-- Throughout `api_call`, the threaded headers dict always ends up with an
`Authorization` entry holding the bearer rendering of some (possibly
absent) access token. -/
theorem api_call_hdrs_auth (o : Nat → AttemptOracle) (endpoint method : String)
    (params jsonBody dataBody : Option String) :
    ∀ (retry : Nat) (st : SessionState) (k : Nat) (hdrs : Headers),
    ∃ t : Option String,
      dictGet (api_call o endpoint method params jsonBody dataBody st k hdrs
        retry).hdrs "Authorization" = some ("Bearer " ++ pyStr t) := by
  intro retry
  induction retry with
  | zero =>
    intro st k hdrs
    refine ⟨st.access_token, ?_⟩
    unfold api_call
    rcases (o k).apiResp with ⟨status, body⟩ | m
    · unfold api_finish
      by_cases h : errStatus status <;> simp [h, dictGet_update_auth, bearer]
    · simpa [bearer] using dictGet_update_auth hdrs st
  | succ r ih =>
    intro st k hdrs
    unfold api_call
    rcases (o k).apiResp with ⟨status, body⟩ | m
    · by_cases h : status = 401 ∨ status = 400
      · simp only [h, if_true]
        rcases herr : (recover st (o k)).err with _ | e
        · simp only [herr]
          exact ih (recover st (o k)).state (k + 1)
            (dictUpdate (dictUpdate hdrs (get_auth_header st))
              (get_auth_header (recover st (o k)).state))
        · refine ⟨st.access_token, ?_⟩
          simp [herr, dictGet_update_auth, bearer]
      · refine ⟨st.access_token, ?_⟩
        simp only [h, if_false]
        unfold api_finish
        by_cases h2 : errStatus status <;>
          simp [h2, dictGet_update_auth, bearer]
    · refine ⟨st.access_token, ?_⟩
      simpa [bearer] using dictGet_update_auth hdrs st

/-- A `_create_session` that raises nothing has stored a fresh access
token. -/
theorem create_session_access_some (st : SessionState)
    (resp : ReqOutcome SessionBody) (saveOk : Bool)
    (h : (create_session st resp saveOk).err = none) :
    (create_session st resp saveOk).state.access_token.isSome = true := by
  unfold create_session at h ⊢
  rcases resp with ⟨status, body⟩ | m
  · by_cases hs : errStatus status
    · simp [hs] at h
    · rcases saveOk with _ | _
      · simp [hs] at h
      · simp [hs]
  · simp at h

/-!  Claim theorems. -/

/-- Claim C4 (code bug): per the claim, a Create/Refresh whose transport
call raises before any response exists should surface as a
`ConnectionError`; in the code the `except` handler's
`getattr(resp, 'status_code', 'No Response')` references the unbound local
`resp` and an `UnboundLocalError` escapes instead — even though the
`'No Response'` default shows the no-response case was meant to be handled.
The non-2xx half of the claim does hold: both operations raise
`ConnectionError` there. -/
theorem claim_C4_transport_bug :
    create_session stA (.exn "connection refused") true
      = ⟨stA, [Event.createEnter, Event.createNet],
          some (.unboundLocalError "create")⟩ ∧
    refresh_access_token stA (.exn "connection refused") true
      = ⟨stA, [Event.refreshEnter, Event.refreshNet],
          some (.unboundLocalError "refresh")⟩ ∧
    (create_session stA (.ok 502 bodyA2) true).err
      = some (.connectionError "Error creating session") ∧
    (refresh_access_token stA (.ok 502 bodyA2) true).err
      = some (.connectionError "Error refreshing session") :=
  ⟨rfl, rfl, rfl, rfl⟩

/-- Claim C5 counterexample: a Create whose session-file write fails does
raise (`IOError`), but the in-memory `access_token` has already been
overwritten from `"A1"` to `"A2"` — the failed operation leaves the tokens
changed, contrary to the claim. -/
theorem claim_C5_counterexample :
    (create_session stA (.ok 200 bodyA2) false).err = some .ioError ∧
    (create_session stA (.ok 200 bodyA2) false).state.access_token
      = some "A2" ∧
    stA.access_token = some "A1" :=
  ⟨rfl, rfl, rfl⟩

/-- Claim C5 as amended: when the session-file write fails, Create and
Refresh propagate the persistence failure (`IOError`) and the operation is
treated as failed, but the in-memory `access_token`, `refresh_token` and
`did` have already been overwritten with the new values before the save
attempt, so they ARE left changed by the failed operation. -/
theorem claim_C5_amended (st st₂ : SessionState) (rt : String)
    (body : SessionBody) (status : Nat) (h : ¬ errStatus status)
    (h₂ : st₂.refresh_token = some rt) :
    create_session st (.ok status body) false
      = ⟨{ st with
            access_token := some body.accessJwt,
            refresh_token := body.refreshJwt,
            did := some body.did },
          [Event.createEnter, Event.createNet], some .ioError⟩ ∧
    refresh_access_token st₂ (.ok status body) false
      = ⟨{ st₂ with
            access_token := some body.accessJwt,
            refresh_token := body.refreshJwt,
            did := some body.did },
          [Event.refreshEnter, Event.refreshNet], some .ioError⟩ := by
  constructor
  · unfold create_session
    simp [h]
  · unfold refresh_access_token
    rw [h₂]
    simp [h]

/-- Claim C5 witness: the amended statement at a concrete non-error status
and states. -/
theorem claim_C5_witness :
    create_session stA (.ok 200 bodyA2) false
      = ⟨{ stA with
            access_token := some bodyA2.accessJwt,
            refresh_token := bodyA2.refreshJwt,
            did := some bodyA2.did },
          [Event.createEnter, Event.createNet], some .ioError⟩ ∧
    refresh_access_token stA (.ok 200 bodyA2) false
      = ⟨{ stA with
            access_token := some bodyA2.accessJwt,
            refresh_token := bodyA2.refreshJwt,
            did := some bodyA2.did },
          [Event.refreshEnter, Event.refreshNet], some .ioError⟩ :=
  claim_C5_amended stA stA "R1" bodyA2 200 (by decide) rfl

/-- Claim C6 counterexample: bootstrapping from a decodable but all-null
persisted blob completes successfully (no error, no network event) yet
leaves `access_token` absent — a successfully constructed session without
an access token, contrary to the claim. -/
theorem claim_C6_counterexample :
    init_session "alice.bsky.social" "pw" (.decoded none none none)
        (.ok 200 bodyA2) true
      = ⟨⟨"alice.bsky.social", "pw", none, none, none⟩, [], none⟩ :=
  rfl

/-- Claim C6 as amended: after a bootstrap that completes successfully,
`access_token` is present if the bootstrap went through fresh credential
exchange (absent or undecodable blob) or the loaded blob carried an
`accessJwt` field; a decodable blob with a null `accessJwt` is accepted
as-is and yields a successfully constructed session with `access_token`
absent. -/
theorem claim_C6_amended (handle app_password : String) (blob : BlobState)
    (createResp : ReqOutcome SessionBody) (createSaveOk : Bool)
    (h : (init_session handle app_password blob createResp createSaveOk).err
      = none) :
    (init_session handle app_password blob createResp
        createSaveOk).state.access_token.isSome
      = blob_access_present blob := by
  rcases blob with _ | _ | ⟨a, r, d⟩
  · exact create_session_access_some _ createResp createSaveOk h
  · exact create_session_access_some _ createResp createSaveOk h
  · simp [init_session, load_session, blob_access_present]

/-- Claim C6 witness: the amended statement for a bootstrap with no
persisted blob and a successful credential exchange. -/
theorem claim_C6_witness :
    (init_session "alice.bsky.social" "pw" BlobState.absent
        (.ok 200 bodyA2) true).state.access_token.isSome
      = blob_access_present BlobState.absent :=
  claim_C6_amended "alice.bsky.social" "pw" BlobState.absent
    (.ok 200 bodyA2) true rfl

/-- Claim C7: a construction that finds a decodable persisted blob
populates `access_token`, `refresh_token` and `did` exactly from the
decoded fields (absent fields map to `none`), performs zero network calls
(the event trace is empty, and the result does not depend on the
credential-exchange oracle), and raises nothing. -/
theorem claim_C7_bootstrap_from_blob (handle app_password : String)
    (a r d : Option String) (createResp : ReqOutcome SessionBody)
    (createSaveOk : Bool) :
    init_session handle app_password (.decoded a r d) createResp createSaveOk
      = ⟨⟨handle, app_password, a, r, d⟩, [], none⟩ :=
  rfl

/-- Claim C8: `logout` clears `access_token`, `refresh_token` and `did`
unconditionally — whether or not the session file exists, and whether or
not its deletion succeeds — and never raises: the deletion failure is
caught and only logged. -/
theorem claim_C8_logout_unconditional_clear (st : SessionState)
    (fileExists deleteOk : Bool) :
    (logout st fileExists deleteOk).state.access_token = none ∧
    (logout st fileExists deleteOk).state.refresh_token = none ∧
    (logout st fileExists deleteOk).state.did = none ∧
    (logout st fileExists deleteOk).err = none := by
  unfold logout
  rcases fileExists with _ | _ <;> rcases deleteOk with _ | _ <;> simp

/-- Claim C9 counterexample: a caller-supplied EMPTY headers dict is falsy,
so line 164 (`headers = headers or {}`) replaces it with a fresh dict; the
caller's dict is not mutated and gains no `Authorization` key, contrary to
the claim's "for every call ... mutated in place". -/
theorem claim_C9_counterexample :
    (api_call_top stA oracle200 "app.bsky.feed.getTimeline" "GET" none none
        none (some []) 1).callerHdrs = some [] :=
  rfl

/-- Claim C9 as amended: when the caller supplies a NON-empty headers dict,
that dict is aliased by the local `headers` variable and mutated in place:
after the call the caller's dict is exactly the final threaded dict, and it
contains an `Authorization` key holding the bearer rendering of an access
token (added or overwritten at line 165, and overwritten again after any
recovery). An empty or missing dict is replaced by a fresh one instead. -/
theorem claim_C9_amended (st : SessionState) (o : Nat → AttemptOracle)
    (endpoint method : String) (params jsonBody dataBody : Option String)
    (hs : Headers) (retry : Nat) (h : hs ≠ []) :
    (api_call_top st o endpoint method params jsonBody dataBody (some hs)
        retry).callerHdrs
      = some (api_call o endpoint method params jsonBody dataBody st 0 hs
          retry).hdrs ∧
    ∃ t : Option String,
      dictGet (api_call o endpoint method params jsonBody dataBody st 0 hs
          retry).hdrs "Authorization" = some ("Bearer " ++ pyStr t) := by
  have hemp : hs.isEmpty = false := by
    rcases hs with _ | _
    · exact absurd rfl h
    · rfl
  constructor
  · unfold api_call_top
    simp only [hemp, Bool.false_eq_true, if_false, Option.map_some']
  · exact api_call_hdrs_auth o endpoint method params jsonBody dataBody
      retry st 0 hs

/-- Claim C9 witness: the amended statement for a concrete one-entry
caller dict. -/
theorem claim_C9_witness :
    (api_call_top stA oracle200 "app.bsky.feed.getTimeline" "GET" none none
        none (some [("X-Custom", "1")]) 1).callerHdrs
      = some (api_call oracle200 "app.bsky.feed.getTimeline" "GET" none none
          none stA 0 [("X-Custom", "1")] 1).hdrs ∧
    ∃ t : Option String,
      dictGet (api_call oracle200 "app.bsky.feed.getTimeline" "GET" none none
          none stA 0 [("X-Custom", "1")] 1).hdrs "Authorization"
        = some ("Bearer " ++ pyStr t) :=
  claim_C9_amended stA oracle200 "app.bsky.feed.getTimeline" "GET" none none
    none [("X-Custom", "1")] 1 (by simp)

/-- Claim C10: `get_auth_header` called while `access_token` is `None`
returns the header mapping `Authorization` to the literal string
`"Bearer None"` — the f-string rendering of the absent token — rather than
omitting the header or failing. -/
theorem claim_C10_bearer_none_header (st : SessionState)
    (h : st.access_token = none) :
    get_auth_header st = [("Authorization", "Bearer None")] := by
  unfold get_auth_header bearer
  rw [h]
  rfl

/-- Claim C10 witness: the statement on a logged-out-like state with no
tokens. -/
theorem claim_C10_witness :
    get_auth_header ⟨"alice.bsky.social", "pw", none, none, none⟩
      = [("Authorization", "Bearer None")] :=
  claim_C10_bearer_none_header
    ⟨"alice.bsky.social", "pw", none, none, none⟩ rfl

/-- Claim C1 counterexample: with retry budget 1 and a 401 on both the
first and the retried attempt (recovery itself succeeding), the guarded
call fails with `requests.HTTPError` from `resp.raise_for_status()` — the
very same error a generic non-2xx response produces (compare the plain-500
run) — not with a distinct `AuthFailureExhausted` error, which does not
exist in the code. -/
theorem claim_C1_counterexample :
    (api_call oracle401 "app.bsky.feed.getTimeline" "GET" none none none
        stA 0 [] 1).result = .error (.httpError 401) ∧
    (api_call oracle500 "app.bsky.feed.getTimeline" "GET" none none none
        stA 0 [] 1).result = .error (.httpError 500) ∧
    PyError.isHttpStatusError (.httpError 401) = true ∧
    PyError.isHttpStatusError (.httpError 500) = true :=
  ⟨rfl, rfl, rfl, rfl⟩

/-- Claim C3 counterexample: a guarded call that receives a 401 while no
refresh token is stored sees `_refresh_access_token` raise `ValueError`;
because the recovery block catches only `ConnectionError`, the `ValueError`
propagates out of the guarded call and `_create_session` is never entered —
there is no fallback to Create, contrary to the claim. -/
theorem claim_C3_counterexample :
    (api_call oracle401 "app.bsky.feed.getTimeline" "GET" none none none
        stNoRefresh 0 [] 1).result
      = .error (.valueError "Refresh token is missing.") ∧
    Event.createEnter ∉ (api_call oracle401 "app.bsky.feed.getTimeline" "GET"
        none none none stNoRefresh 0 [] 1).events :=
  ⟨rfl, by decide⟩

/-- One-step unfolding of `api_call` at an exhausted retry budget. -/
theorem api_call_zero (o : Nat → AttemptOracle) (endpoint method : String)
    (params jsonBody dataBody : Option String) (st : SessionState) (k : Nat)
    (hdrs : Headers) :
    api_call o endpoint method params jsonBody dataBody st k hdrs 0
      = (match (o k).apiResp with
         | .exn m => ⟨st, dictUpdate hdrs (get_auth_header st),
             [Event.attempt endpoint method params jsonBody dataBody (bearer st)],
             .error (.requestException m)⟩
         | .ok status body =>
             api_finish st (dictUpdate hdrs (get_auth_header st))
               (Event.attempt endpoint method params jsonBody dataBody (bearer st))
               status body) :=
  rfl

/-- One-step unfolding of `api_call` at a positive retry budget. -/
theorem api_call_succ (o : Nat → AttemptOracle) (endpoint method : String)
    (params jsonBody dataBody : Option String) (st : SessionState) (k : Nat)
    (hdrs : Headers) (rb : Nat) :
    api_call o endpoint method params jsonBody dataBody st k hdrs (rb + 1)
      = (match (o k).apiResp with
         | .exn m => ⟨st, dictUpdate hdrs (get_auth_header st),
             [Event.attempt endpoint method params jsonBody dataBody (bearer st)],
             .error (.requestException m)⟩
         | .ok status body =>
           if status = 401 ∨ status = 400 then
             match (recover st (o k)).err with
             | some e => ⟨(recover st (o k)).state,
                 dictUpdate hdrs (get_auth_header st),
                 Event.attempt endpoint method params jsonBody dataBody (bearer st)
                   :: Event.recover :: (recover st (o k)).events, .error e⟩
             | none =>
               ⟨(api_call o endpoint method params jsonBody dataBody
                   (recover st (o k)).state (k + 1)
                   (dictUpdate (dictUpdate hdrs (get_auth_header st))
                     (get_auth_header (recover st (o k)).state)) rb).state,
                 (api_call o endpoint method params jsonBody dataBody
                   (recover st (o k)).state (k + 1)
                   (dictUpdate (dictUpdate hdrs (get_auth_header st))
                     (get_auth_header (recover st (o k)).state)) rb).hdrs,
                 Event.attempt endpoint method params jsonBody dataBody (bearer st)
                   :: Event.recover :: ((recover st (o k)).events
                     ++ (api_call o endpoint method params jsonBody dataBody
                       (recover st (o k)).state (k + 1)
                       (dictUpdate (dictUpdate hdrs (get_auth_header st))
                         (get_auth_header (recover st (o k)).state)) rb).events),
                 (api_call o endpoint method params jsonBody dataBody
                   (recover st (o k)).state (k + 1)
                   (dictUpdate (dictUpdate hdrs (get_auth_header st))
                     (get_auth_header (recover st (o k)).state)) rb).result⟩
           else api_finish st (dictUpdate hdrs (get_auth_header st))
             (Event.attempt endpoint method params jsonBody dataBody (bearer st))
             status body) :=
  rfl

/-- Claim C3 as amended: a Refresh attempted with no stored refresh token
fails immediately with `ValueError` — no network call is made and the
result does not depend on the transport oracle — but within a guarded
call's recovery this `ValueError` is NOT caught (line 173 catches only
`ConnectionError`), so it propagates out of the guarded call and Create is
never attempted, rather than triggering a fallback to Create. -/
theorem claim_C3_amended (st : SessionState) (resp : ReqOutcome SessionBody)
    (saveOk : Bool) (o : Nat → AttemptOracle) (endpoint method : String)
    (params jsonBody dataBody : Option String) (k : Nat) (hdrs : Headers)
    (rb : Nat) (b : String)
    (hrt : st.refresh_token = none) (h0 : (o k).apiResp = .ok 401 b) :
    refresh_access_token st resp saveOk
      = ⟨st, [Event.refreshEnter],
          some (.valueError "Refresh token is missing.")⟩ ∧
    api_call o endpoint method params jsonBody dataBody st k hdrs (rb + 1)
      = ⟨st, dictUpdate hdrs (get_auth_header st),
          [Event.attempt endpoint method params jsonBody dataBody (bearer st),
           Event.recover, Event.refreshEnter],
          .error (.valueError "Refresh token is missing.")⟩ := by
  have href : ∀ (r : ReqOutcome SessionBody) (sv : Bool),
      refresh_access_token st r sv
        = ⟨st, [Event.refreshEnter],
            some (.valueError "Refresh token is missing.")⟩ := by
    intro r sv
    unfold refresh_access_token
    rw [hrt]
  have hrec : recover st (o k)
      = ⟨st, [Event.refreshEnter],
          some (.valueError "Refresh token is missing.")⟩ := by
    unfold recover
    rw [href]
  refine ⟨href resp saveOk, ?_⟩
  rw [api_call_succ]
  simp only [h0]
  simp only [true_or, if_true]
  simp only [hrec]

/-- Claim C3 witness: the amended statement on a concrete session with an
access token but no refresh token, receiving a 401. -/
theorem claim_C3_witness :
    refresh_access_token stNoRefresh (.ok 200 bodyA2) true
      = ⟨stNoRefresh, [Event.refreshEnter],
          some (.valueError "Refresh token is missing.")⟩ ∧
    api_call oracle401 "app.bsky.feed.getTimeline" "GET" none none none
        stNoRefresh 0 [] 1
      = ⟨stNoRefresh, dictUpdate [] (get_auth_header stNoRefresh),
          [Event.attempt "app.bsky.feed.getTimeline" "GET" none none none
            (bearer stNoRefresh),
           Event.recover, Event.refreshEnter],
          .error (.valueError "Refresh token is missing.")⟩ :=
  claim_C3_amended stNoRefresh (.ok 200 bodyA2) true oracle401
    "app.bsky.feed.getTimeline" "GET" none none none 0 [] 0 "\x7b\x7d"
    rfl rfl

/-- Claim C2: for a guarded call whose first attempt returns 401 with
retry budget `rb + 1 > 0`: (1) the trace begins with the guarded attempt,
the `RECOVER` transition and the entry into Refresh — never Create first;
(2) Create is entered during the recovery only if the Refresh attempt
failed (with `ConnectionError`); (3) when recovery raises nothing, the call
is exactly the recovery prefix followed by a recursive call on the SAME
endpoint, method, params and payloads with budget decremented to `rb`;
(4) that re-issued call again starts by attempting the same request, now
under the post-recovery bearer token. -/
theorem claim_C2_recovery_ordering (o : Nat → AttemptOracle)
    (endpoint method : String) (params jsonBody dataBody : Option String)
    (st : SessionState) (k : Nat) (hdrs : Headers) (rb : Nat) (b : String)
    (h0 : (o k).apiResp = .ok 401 b) :
    (∃ t, (api_call o endpoint method params jsonBody dataBody st k hdrs
        (rb + 1)).events
      = Event.attempt endpoint method params jsonBody dataBody (bearer st)
        :: Event.recover :: Event.refreshEnter :: t) ∧
    (Event.createEnter ∈ (recover st (o k)).events →
      ∃ c, (refresh_access_token st (o k).refreshResp (o k).refreshSaveOk).err
        = some (.connectionError c)) ∧
    ((recover st (o k)).err = none →
      api_call o endpoint method params jsonBody dataBody st k hdrs (rb + 1)
        = ⟨(api_call o endpoint method params jsonBody dataBody
              (recover st (o k)).state (k + 1)
              (dictUpdate (dictUpdate hdrs (get_auth_header st))
                (get_auth_header (recover st (o k)).state)) rb).state,
            (api_call o endpoint method params jsonBody dataBody
              (recover st (o k)).state (k + 1)
              (dictUpdate (dictUpdate hdrs (get_auth_header st))
                (get_auth_header (recover st (o k)).state)) rb).hdrs,
            Event.attempt endpoint method params jsonBody dataBody (bearer st)
              :: Event.recover :: ((recover st (o k)).events
                ++ (api_call o endpoint method params jsonBody dataBody
                  (recover st (o k)).state (k + 1)
                  (dictUpdate (dictUpdate hdrs (get_auth_header st))
                    (get_auth_header (recover st (o k)).state)) rb).events),
            (api_call o endpoint method params jsonBody dataBody
              (recover st (o k)).state (k + 1)
              (dictUpdate (dictUpdate hdrs (get_auth_header st))
                (get_auth_header (recover st (o k)).state)) rb).result⟩) ∧
    (∃ t, (api_call o endpoint method params jsonBody dataBody
        (recover st (o k)).state (k + 1)
        (dictUpdate (dictUpdate hdrs (get_auth_header st))
          (get_auth_header (recover st (o k)).state)) rb).events
      = Event.attempt endpoint method params jsonBody dataBody
          (bearer (recover st (o k)).state) :: t) := by
  obtain ⟨t, ht⟩ := recover_events_head st (o k)
  refine ⟨?_, ?_, ?_, ?_⟩
  · rw [api_call_succ]
    simp only [h0]
    simp only [true_or, if_true]
    rcases herr : (recover st (o k)).err with _ | e
    · simp only [herr]
      refine ⟨t ++ (api_call o endpoint method params jsonBody dataBody
        (recover st (o k)).state (k + 1)
        (dictUpdate (dictUpdate hdrs (get_auth_header st))
          (get_auth_header (recover st (o k)).state)) rb).events, ?_⟩
      rw [ht]
      simp
    · simp only [herr]
      exact ⟨t, by rw [ht]⟩
  · intro hmem
    unfold recover at hmem
    rcases herr : (refresh_access_token st (o k).refreshResp
        (o k).refreshSaveOk).err with _ | e
    · simp only [herr] at hmem
      exact absurd hmem (refresh_no_createEnter st (o k).refreshResp
        (o k).refreshSaveOk)
    · rcases e with c | m | s | _ | m | c
      · exact ⟨c, rfl⟩
      all_goals
        simp only [herr] at hmem
        exact absurd hmem (refresh_no_createEnter st (o k).refreshResp
          (o k).refreshSaveOk)
  · intro herr
    rw [api_call_succ]
    simp only [h0]
    simp only [true_or, if_true]
    simp only [herr]
  · exact api_call_events_head o endpoint method params jsonBody dataBody
      (recover st (o k)).state (k + 1)
      (dictUpdate (dictUpdate hdrs (get_auth_header st))
        (get_auth_header (recover st (o k)).state)) rb

/-- Claim C2 witness: part (1) of the claim theorem instantiated on a
concrete 401-then-recover run (the hypothesis is discharged by computing
the oracle). -/
theorem claim_C2_witness :
    ∃ t, (api_call oracle401 "app.bsky.feed.getTimeline" "GET" none none none
        stA 0 [] 1).events
      = Event.attempt "app.bsky.feed.getTimeline" "GET" none none none
          (bearer stA) :: Event.recover :: Event.refreshEnter :: t :=
  (claim_C2_recovery_ordering oracle401 "app.bsky.feed.getTimeline" "GET"
    none none none stA 0 [] 0 "\x7b\x7d" rfl).1

/-- Claim C1 as amended: with retry budget 1 and auth-failure statuses
(401/400) on both the first and the retried attempt — recovery itself
completing without raising — the guarded call performs exactly one
recovery attempt and then fails with the generic `requests.HTTPError`
carrying the retried attempt's status, the same error class used for any
non-2xx response; there is no distinct `AuthFailureExhausted` error, and
the call terminates rather than looping. -/
theorem claim_C1_amended (o : Nat → AttemptOracle) (endpoint method : String)
    (params jsonBody dataBody : Option String) (st : SessionState)
    (hdrs : Headers) (s0 s1 : Nat) (b0 b1 : String)
    (h0 : (o 0).apiResp = .ok s0 b0) (hs0 : s0 = 401 ∨ s0 = 400)
    (hrec : (recover st (o 0)).err = none)
    (h1 : (o 1).apiResp = .ok s1 b1) (hs1 : s1 = 401 ∨ s1 = 400) :
    (api_call o endpoint method params jsonBody dataBody st 0 hdrs 1).result
      = .error (.httpError s1) ∧
    (api_call o endpoint method params jsonBody dataBody st 0 hdrs
        1).events.count Event.recover = 1 ∧
    PyError.isHttpStatusError (.httpError s1) = true := by
  have hes1 : errStatus s1 := by
    rcases hs1 with h | h <;> rw [h] <;> exact ⟨by norm_num, by norm_num⟩
  have hone : (1 : Nat) = 0 + 1 := rfl
  have hu := api_call_succ o endpoint method params jsonBody dataBody st 0
    hdrs 0
  rw [← hone] at hu
  rw [hu]
  simp only [h0]
  rw [if_pos hs0]
  simp only [hrec]
  rw [api_call_zero]
  simp only [h1]
  unfold api_finish
  rw [if_pos hes1]
  refine ⟨rfl, ?_, rfl⟩
  simp [List.count_cons, List.count_append, recover_event_count]

/-- Claim C1 witness: the amended statement on a concrete environment
returning 401 twice with a successful refresh in between. -/
theorem claim_C1_witness :
    (api_call oracle401 "app.bsky.feed.getTimeline" "GET" none none none
        stA 0 [] 1).result = .error (.httpError 401) ∧
    (api_call oracle401 "app.bsky.feed.getTimeline" "GET" none none none
        stA 0 [] 1).events.count Event.recover = 1 ∧
    PyError.isHttpStatusError (.httpError 401) = true :=
  claim_C1_amended oracle401 "app.bsky.feed.getTimeline" "GET" none none
    none stA [] 401 401 "\x7b\x7d" "\x7b\x7d" rfl (Or.inl rfl) rfl rfl
    (Or.inl rfl)

end BskyBridge
